import Mathlib

/-!
Verification of the Fusion360-AgenticCAD bridge and agent loop.

The definitions below are a shallow embedding of the Python sources:
- `src/fusion_addin/FusionBridge/bridge_server.py` (task bridge, host
  executor drain, tool registry, HTTP request listener), and
- `src/client/chat_cli.py` (JSON-only action parsing, tool router,
  agent loop).

Python `json.loads` is modelled by a total recursive-descent reader over
the JSON grammar used by the system (strings with escapes, numbers kept
as their literal text, arrays, objects); Python dicts are modelled as
association lists in insertion order.
-/

namespace AgenticCAD

/-- A JSON value as produced by `json.loads`.  Numbers keep their literal
text (the claims never compare numeric magnitudes). -/
inductive Json where
  | null
  | bool (b : Bool)
  | num (lit : String)
  | str (s : String)
  | arr (elems : List Json)
  | obj (members : List (String × Json))

/-- JSON insignificant whitespace (RFC 8259, as accepted by `json.loads`):
space, tab, line feed, carriage return. -/
def jsonWs (c : Char) : Bool :=
  c.toNat = 32 || c.toNat = 9 || c.toNat = 10 || c.toNat = 13

/-- Drop leading JSON whitespace. -/
def jskipWs (cs : List Char) : List Char :=
  cs.dropWhile jsonWs

def isDigitCh (c : Char) : Bool :=
  48 ≤ c.toNat && c.toNat ≤ 57

def hexDigitVal (c : Char) : Option Nat :=
  let n := c.toNat
  if 48 ≤ n && n ≤ 57 then some (n - 48)
  else if 97 ≤ n && n ≤ 102 then some (n - 87)
  else if 65 ≤ n && n ≤ 70 then some (n - 55)
  else none

/-- One simple escape character after a backslash, as in `json.loads`. -/
def jsonUnescape (c : Char) : Option Char :=
  if c = '"' || c = '\\' || c = '/' then some c
  else if c = 'n' then some '\n'
  else if c = 't' then some '\t'
  else if c = 'r' then some '\r'
  else if c = 'b' then some (Char.ofNat 8)
  else if c = 'f' then some (Char.ofNat 12)
  else none

/-- Body of a JSON string after the opening quote.  `json.loads` rejects raw
control characters and unknown escapes.  (`\uXXXX` is decoded directly; the
claims never involve surrogate pairs.) -/
def jsonStrBody (acc : List Char) : List Char → Option (String × List Char)
  | [] => none
  | c :: rest =>
    if c = '"' then some (String.mk acc.reverse, rest)
    else if c = '\\' then
      match rest with
      | 'u' :: h1 :: h2 :: h3 :: h4 :: r3 =>
        match hexDigitVal h1, hexDigitVal h2, hexDigitVal h3, hexDigitVal h4 with
        | some v1, some v2, some v3, some v4 =>
          jsonStrBody (Char.ofNat (v1 * 4096 + v2 * 256 + v3 * 16 + v4) :: acc) r3
        | _, _, _, _ => none
      | e :: r2 =>
        match jsonUnescape e with
        | some ch => jsonStrBody (ch :: acc) r2
        | none => none
      | [] => none
    else if c.toNat < 32 then none
    else jsonStrBody (c :: acc) rest

/-- Optional exponent part of a JSON number (`e`/`E`, optional sign, one or
more digits), appended to the literal text scanned so far. -/
def jsonExpPart (fr : List Char) (e : Char) (r : List Char) : Option (List Char × List Char) :=
  let signLen : Nat :=
    match r with
    | c :: _ => if c = '+' || c = '-' then 1 else 0
    | [] => 0
  let r1 := r.drop signLen
  let ds := r1.takeWhile isDigitCh
  if ds.isEmpty then none
  else some (fr ++ e :: (r.take signLen ++ ds), r1.dropWhile isDigitCh)

/-- Optional fraction then optional exponent after the integer part. -/
def jsonNumTail (cs : List Char) : Option (List Char × List Char) :=
  let fracRes : Option (List Char × List Char) :=
    match cs with
    | '.' :: r =>
      let ds := r.takeWhile isDigitCh
      if ds.isEmpty then none else some ('.' :: ds, r.dropWhile isDigitCh)
    | _ => some ([], cs)
  match fracRes with
  | none => none
  | some (fr, cs2) =>
    match cs2 with
    | 'e' :: r => jsonExpPart fr 'e' r
    | 'E' :: r => jsonExpPart fr 'E' r
    | _ => some (fr, cs2)

/-- A JSON number literal `-? int frac? exp?` with no leading zeros, kept as
its source text.  Mirrors the grammar enforced by `json.loads`. -/
def jsonNumLit (cs : List Char) : Option (String × List Char) :=
  let (sgn, cs1) : List Char × List Char :=
    match cs with
    | '-' :: r => (['-'], r)
    | _ => ([], cs)
  match cs1 with
  | '0' :: r =>
    match jsonNumTail r with
    | some (t, rest) => some (String.mk (sgn ++ '0' :: t), rest)
    | none => none
  | c :: _ =>
    if isDigitCh c then
      match jsonNumTail (cs1.dropWhile isDigitCh) with
      | some (t, rest) => some (String.mk (sgn ++ cs1.takeWhile isDigitCh ++ t), rest)
      | none => none
    else none
  | [] => none

/-- Strip an exact keyword tail (the characters after the keyword's first
letter), returning what follows it. -/
def afterKeyword : List Char → List Char → Option (List Char)
  | cs, [] => some cs
  | [], _ :: _ => none
  | c :: cs, l :: ls => if c = l then afterKeyword cs ls else none

mutual

/-- One JSON value (fuel-bounded recursive descent, as `json.loads`),
dispatching on the first significant character. -/
def jsonVal (fuel : Nat) (cs : List Char) : Option (Json × List Char) :=
  match fuel with
  | 0 => none
  | fuel + 1 =>
    match jskipWs cs with
    | [] => none
    | c :: r =>
      if c = '\x7b' then
        match jskipWs r with
        | '\x7d' :: r2 => some (.obj [], r2)
        | r2 => jsonMembers fuel r2 []
      else if c = '\x5b' then
        match jskipWs r with
        | '\x5d' :: r2 => some (.arr [], r2)
        | r2 => jsonElems fuel r2 []
      else if c = '"' then
        match jsonStrBody [] r with
        | some (s, r2) => some (.str s, r2)
        | none => none
      else if c = 'n' then
        (afterKeyword r ['u', 'l', 'l']).map fun r2 => (.null, r2)
      else if c = 't' then
        (afterKeyword r ['r', 'u', 'e']).map fun r2 => (.bool true, r2)
      else if c = 'f' then
        (afterKeyword r ['a', 'l', 's', 'e']).map fun r2 => (.bool false, r2)
      else if c = '-' || isDigitCh c then
        match jsonNumLit (c :: r) with
        | some (lit, r2) => some (.num lit, r2)
        | none => none
      else none

/-- One-or-more comma-separated array elements (accumulated in order), then
the closing bracket. -/
def jsonElems (fuel : Nat) (cs : List Char) (acc : List Json) :
    Option (Json × List Char) :=
  match fuel with
  | 0 => none
  | fuel + 1 =>
    match jsonVal fuel cs with
    | none => none
    | some (v, r) =>
      match jskipWs r with
      | ',' :: r2 => jsonElems fuel r2 (acc ++ [v])
      | '\x5d' :: r2 => some (.arr (acc ++ [v]), r2)
      | _ => none

/-- One-or-more `"key": value` members (accumulated in order), then the
closing brace. -/
def jsonMembers (fuel : Nat) (cs : List Char) (acc : List (String × Json)) :
    Option (Json × List Char) :=
  match fuel with
  | 0 => none
  | fuel + 1 =>
    match jskipWs cs with
    | '"' :: r =>
      match jsonStrBody [] r with
      | none => none
      | some (k, r1) =>
        match jskipWs r1 with
        | ':' :: r2 =>
          match jsonVal fuel r2 with
          | none => none
          | some (v, r3) =>
            match jskipWs r3 with
            | ',' :: r4 => jsonMembers fuel r4 (acc ++ [(k, v)])
            | '\x7d' :: r4 => some (.obj (acc ++ [(k, v)]), r4)
            | _ => none
        | _ => none
    | _ => none

end

/-- `json.loads` over a character list: one value, then only trailing
whitespace is permitted (anything more is Python's "Extra data" error). -/
def jsonLoadsChars (cs : List Char) : Except String Json :=
  match jsonVal (cs.length + 1) cs with
  | some (v, rest) =>
    if jskipWs rest = [] then .ok v else .error "Extra data"
  | none => .error "Expecting value"

/-- `json.loads` on a string. -/
def jsonLoads (s : String) : Except String Json :=
  jsonLoadsChars s.data

/-! ### Python string primitives used by `chat_cli.py` -/

/-- Python `str.isspace` characters relevant to `str.strip()` (ASCII range). -/
def pySpace (c : Char) : Bool :=
  c = ' ' || c = '\t' || c = '\n' || c = '\r' || c = '\x0b' || c = '\x0c'

/-- Python `str.strip()` with no arguments. -/
def pyStripChars (cs : List Char) : List Char :=
  ((cs.dropWhile pySpace).reverse.dropWhile pySpace).reverse

def pyStrip (s : String) : String :=
  String.mk (pyStripChars s.data)

/-- Index of the first character satisfying `p` (Python `str.find`, as an
`Option` instead of `-1`). -/
def findIdxFrom (p : Char → Bool) : List Char → Option Nat
  | [] => none
  | c :: cs => if p c then some 0 else (findIdxFrom p cs).map (· + 1)

/-- Index of the last character satisfying `p` (Python `str.rfind`). -/
def rfindIdx (p : Char → Bool) (cs : List Char) : Option Nat :=
  (findIdxFrom p cs.reverse).map (fun k => cs.length - 1 - k)

/-- Python slice `text[i : j + 1]`. -/
def sliceIncl (cs : List Char) (i j : Nat) : List Char :=
  (cs.drop i).take (j + 1 - i)

/-! ### `chat_cli._parse_json_only` -/

/-- `_parse_json_only` (chat_cli.py:182-190): strip; if the text does not
start with a brace, try to cut out `text[first-brace : last-brace + 1]`
(only when both exist and the last is strictly after the first); then
`json.loads` the result. -/
def parseJsonOnlyChars (cs0 : List Char) : Except String Json :=
  let cs := pyStripChars cs0
  let cs2 :=
    if cs.head? = some '\x7b' then cs
    else
      match findIdxFrom (fun c => c = '\x7b') cs, rfindIdx (fun c => c = '\x7d') cs with
      | some i, some j => if i < j then sliceIncl cs i j else cs
      | _, _ => cs
  jsonLoadsChars cs2

def parseJsonOnly (s : String) : Except String Json :=
  parseJsonOnlyChars s.data

/-! ### Python dict / value semantics on `Json` -/

/-- Lookup with last-occurrence-wins, matching how `json.loads` builds a dict
when keys repeat. -/
def lookupLast : List (String × Json) → String → Option Json
  | [], _ => none
  | (a, v) :: rest, k =>
    match lookupLast rest k with
    | some w => some w
    | none => if a = k then some v else none

/-- Python `d.get(k)` on a parsed JSON object.  (On a non-dict Python raises
`AttributeError`; the claims only exercise dict-shaped values, and we model
the accessor as absent there.) -/
def jget (j : Json) (k : String) : Option Json :=
  match j with
  | .obj ms => lookupLast ms k
  | _ => none

/-- Does the mantissa of a JSON number literal contain a nonzero digit?
(Equivalently, the numeric value is nonzero.) -/
def numLitNonzero (lit : String) : Bool :=
  (lit.data.takeWhile (fun c => c ≠ 'e' && c ≠ 'E')).any
    (fun c => '1' ≤ c && c ≤ '9')

/-- Python truthiness of a JSON-decoded value. -/
def truthy : Json → Bool
  | .null => false
  | .bool b => b
  | .num lit => numLitNonzero lit
  | .str s => !(s == "")
  | .arr xs => !xs.isEmpty
  | .obj ms => !ms.isEmpty

/-- Python truthiness of `d.get(k)` (where `None` is falsy). -/
def truthyOpt : Option Json → Bool
  | none => false
  | some j => truthy j

/-- Python `value == "lit"` for a value of JSON origin: true exactly for the
equal string. -/
def jeqStrOpt : Option Json → String → Bool
  | some (.str t), s => t == s
  | _, _ => false

mutual

/-- Python `repr` of a JSON-decoded value, as used by f-string interpolation
of dicts (`None`/`True`/`False`, single-quoted strings; number literals are
kept as scanned, a faithful-enough stand-in for `repr(int(..))`). -/
def pyRepr : Json → String
  | .null => "None"
  | .bool true => "True"
  | .bool false => "False"
  | .num lit => lit
  | .str s => "\x27" ++ s ++ "\x27"
  | .arr xs => "\x5b" ++ pyReprList xs ++ "\x5d"
  | .obj ms => "\x7b" ++ pyReprMembers ms ++ "\x7d"

def pyReprList : List Json → String
  | [] => ""
  | [x] => pyRepr x
  | x :: xs => pyRepr x ++ ", " ++ pyReprList xs

def pyReprMembers : List (String × Json) → String
  | [] => ""
  | [(k, v)] => "\x27" ++ k ++ "\x27: " ++ pyRepr v
  | (k, v) :: ms => "\x27" ++ k ++ "\x27: " ++ pyRepr v ++ ", " ++ pyReprMembers ms

end

/-- Python `str` of a JSON-decoded value (`str` on a `str` is the bare text,
anything else falls back to `repr`), as f-strings interpolate it. -/
def pyStr : Json → String
  | .str s => s
  | j => pyRepr j

/-- Escape one character for `json.dumps` output (ASCII fragment). -/
def jsonEscapeChar (c : Char) : String :=
  if c = '"' then "\\\""
  else if c = '\\' then "\\\\"
  else if c = '\n' then "\\n"
  else if c = '\t' then "\\t"
  else if c = '\r' then "\\r"
  else if c.toNat < 32 then
    "\\u00" ++ String.mk [hexDigitCh (c.toNat / 16), hexDigitCh (c.toNat % 16)]
  else String.mk [c]
where
  hexDigitCh (n : Nat) : Char :=
    if n < 10 then Char.ofNat ('0'.toNat + n) else Char.ofNat ('a'.toNat + n - 10)

def jsonEscape (s : String) : String :=
  s.data.foldl (fun acc c => acc ++ jsonEscapeChar c) ""

mutual

/-- `json.dumps` with the default separators (item `", "`, key `": "`).
`chat_cli.py` serializes the parsed command and the tool result with it; the
claims never inspect these serialized strings, only the message structure. -/
def jdump : Json → String
  | .null => "null"
  | .bool true => "true"
  | .bool false => "false"
  | .num lit => lit
  | .str s => "\"" ++ jsonEscape s ++ "\""
  | .arr xs => "\x5b" ++ jdumpList xs ++ "\x5d"
  | .obj ms => "\x7b" ++ jdumpMembers ms ++ "\x7d"

def jdumpList : List Json → String
  | [] => ""
  | [x] => jdump x
  | x :: xs => jdump x ++ ", " ++ jdumpList xs

def jdumpMembers : List (String × Json) → String
  | [] => ""
  | [(k, v)] => "\"" ++ jsonEscape k ++ "\": " ++ jdump v
  | (k, v) :: ms => "\"" ++ jsonEscape k ++ "\": " ++ jdump v ++ ", " ++ jdumpMembers ms

end

/-! ### Task Bridge and Host Executor (`bridge_server.py` lines 30-87)

`_task_results` is a dict from task id to `{"event": Event, "result": ...}`;
`_task_queue` is a FIFO of `(task_id, fn, payload)` triples.  A handler `fn`
either returns a value or raises; `str(e)` and `traceback.format_exc()` are
modelled as the strings the raise carries. -/

/-- The result a Python handler produces: a normal return, or a raised
exception with its `str(e)` text and its traceback text. -/
inductive HRes where
  | ret (v : Json)
  | exn (msg : String) (trace : String)

/-- One `_task_results[task_id]` entry: the completion `threading.Event`
(set or not) and the `"result"` slot. -/
structure TaskEntry where
  eventSet : Bool
  result : Option Json

/-- `_task_results`, in insertion order. -/
abbrev ResultsMap := List (String × TaskEntry)

/-- One `(task_id, fn, payload)` triple from `_task_queue`. -/
structure QueuedTask where
  id : String
  fn : Json → HRes
  payload : Json

/-- The two bridge globals together. -/
structure BridgeState where
  taskResults : ResultsMap
  taskQueue : List QueuedTask

def mapLookup : ResultsMap → String → Option TaskEntry
  | [], _ => none
  | p :: rest, k => if p.1 = k then some p.2 else mapLookup rest k

/-- Overwrite the entry at an existing key, keeping its position. -/
def mapSet : ResultsMap → String → TaskEntry → ResultsMap
  | [], _, _ => []
  | p :: rest, k, v => (if p.1 = k then (k, v) else p) :: mapSet rest k v

/-- `del _task_results[task_id]`. -/
def mapRemove : ResultsMap → String → ResultsMap
  | [], _ => []
  | p :: rest, k => if p.1 = k then mapRemove rest k else p :: mapRemove rest k

/-- `_task_results[task_id] = {...}` for a fresh id (appends, as a Python
dict stores a new key at the end of its insertion order). -/
def mapInsert (m : ResultsMap) (k : String) (v : TaskEntry) : ResultsMap :=
  m ++ [(k, v)]

/-- `{"ok": True, "result": out}`. -/
def okResult (v : Json) : Json :=
  .obj [("ok", .bool true), ("result", v)]

/-- `{"ok": False, "error": str(e), "trace": traceback.format_exc()}`. -/
def failResult (msg trace : String) : Json :=
  .obj [("ok", .bool false), ("error", .str msg), ("trace", .str trace)]

/-- Run `fn(payload)` inside the executor's inner `try`: a normal return
becomes the ok-dict, a raise is caught and becomes the error-dict
(`_ExecEventHandler.notify`, bridge_server.py lines 55-63). -/
def runTask (fn : Json → HRes) (payload : Json) : Json :=
  match fn payload with
  | .ret v => okResult v
  | .exn m tr => failResult m tr

/-- The executor's drain loop (`_ExecEventHandler.notify`, lines 52-65).

Each iteration pops one task and runs its handler.  If the task id is still
in `_task_results`, the outcome dict is written into the entry and the
completion event is set, and the loop continues with the next queued task.

If the id is absent (the submitter timed out and deleted its entry), the
Python write `_task_results[task_id]["result"] = ...` raises `KeyError`;
the inner `except` clause re-raises from the same missing-key subscript, and
the `finally` (`...["event"].set()`) raises again, so the exception escapes
the `while` loop and is swallowed only by the outer blanket `except` (lines
66-71).  The handler itself has already run by then.  Result: that task id
is recorded as executed, nothing is written, and the remaining queued tasks
of this drain are left unprocessed.

Returns (final results map, ids whose handlers ran in order, queue left). -/
def drainQueue : List QueuedTask → ResultsMap → ResultsMap × List String × List QueuedTask
  | [], res => (res, [], [])
  | t :: rest, res =>
    match mapLookup res t.id with
    | none => (res, [t.id], rest)
    | some _ =>
      let written : TaskEntry := { eventSet := true, result := some (runTask t.fn t.payload) }
      let res2 := mapSet res t.id written
      ((drainQueue rest res2).1, t.id :: (drainQueue rest res2).2.1, (drainQueue rest res2).2.2)

/-- One delivery of the `FusionBridgeExecEvent` custom event: drain the FIFO
queue on the Fusion (host) thread.  Returns the new state and the ids whose
handlers were executed, in execution order. -/
def notifyExec (st : BridgeState) : BridgeState × List String :=
  (⟨(drainQueue st.taskQueue st.taskResults).1,
    (drainQueue st.taskQueue st.taskResults).2.2⟩,
   (drainQueue st.taskQueue st.taskResults).2.1)

/-- `ev.wait(timeout=30.0)`: the fixed wait bound of `_run_on_fusion_thread`
(bridge_server.py line 82). -/
def waitTimeoutSeconds : Nat := 30

/-- `{"ok": False, "error": "Timeout waiting for Fusion execution."}` -/
def timeoutResult : Json :=
  .obj [("ok", .bool false), ("error", .str "Timeout waiting for Fusion execution.")]

/-- First half of `_run_on_fusion_thread` (lines 75-80): create the entry
`{"event": Event(), "result": None}` under the freshly generated id, and
push `(task_id, fn, payload)` onto the queue.  (`fireCustomEvent` wakes the
host thread; when the drain runs relative to the caller's wait is the race
the claims are about, so it is left to the theorem statements.) -/
def submitInsert (st : BridgeState) (id : String) (fn : Json → HRes) (payload : Json) :
    BridgeState :=
  ⟨mapInsert st.taskResults id ⟨false, none⟩, st.taskQueue ++ [⟨id, fn, payload⟩]⟩

/-- Second half of `_run_on_fusion_thread` (lines 82-87): after the wait,
read `_task_results[task_id]["result"]`, delete the entry, and return the
timeout dict when the slot is still `None`, else the written outcome.
`none` models the `KeyError` Python would raise if the entry were missing,
which the submit lifecycle never produces (only the submitter deletes its
own id). -/
def submitFinish (st : BridgeState) (id : String) : Option (BridgeState × Json) :=
  match mapLookup st.taskResults id with
  | none => none
  | some entry =>
    some (⟨mapRemove st.taskResults id, st.taskQueue⟩,
      match entry.result with
      | none => timeoutResult
      | some r => r)

/-! ### Tool registry and HTTP listener (`bridge_server.py` lines 989-1068)

Handlers in `_TOOL_MAP` wrap the Fusion API and are opaque here; each is
represented by its function name, and `_run_on_fusion_thread` is abstracted
as a `bridge` parameter (handler name and args in, outcome dict out).  The
returned call list records every submission that went through the bridge. -/

/-- `_TOOL_MAP` (lines 990-1028), in source order: registry name to handler
function name. -/
def TOOL_MAP : List (String × String) :=
  [("ping", "_ping"),
   ("get_state", "_get_state"),
   ("list_bodies", "_list_bodies"),
   ("get_last_body", "_get_last_body"),
   ("create_sketch_on_plane", "_create_sketch_on_plane"),
   ("create_sketch_rect_xy", "_create_sketch_rect_xy"),
   ("create_sketch_circle_xy", "_create_sketch_circle_xy"),
   ("create_sketch_two_circles_xy", "_create_sketch_two_circles_xy"),
   ("create_sketch_on_last_body_top", "_create_sketch_on_last_body_top"),
   ("sketch_center_rectangle", "_sketch_center_rectangle"),
   ("sketch_two_circles_current", "_sketch_two_circles_current"),
   ("sketch_line", "_sketch_line"),
   ("extrude_last_profile", "_extrude_last_profile"),
   ("extrude_profile", "_extrude_profile"),
   ("revolve_profile", "_revolve_profile"),
   ("hole_on_last_body_top_face", "_hole_on_last_body_top_face"),
   ("hole_bolt_circle_one", "_hole_bolt_circle_one"),
   ("circular_pattern_last_feature", "_circular_pattern_last_feature"),
   ("countersink_hole_on_last_body_top_face", "_countersink_hole_on_last_body_top_face"),
   ("delete_all_bodies", "_delete_all_bodies"),
   ("combine_all_bodies", "_combine_all_bodies"),
   ("circular_pattern_last_body", "_circular_pattern_last_body"),
   ("component_from_last_body", "_component_from_last_body"),
   ("rigid_joint_last_two_components", "_rigid_joint_last_two_components"),
   ("create_spur_gear_involute", "_create_spur_gear_involute"),
   ("create_rack_gear", "_create_rack_gear"),
   ("create_helical_gear", "_create_helical_gear"),
   ("create_internal_gear", "_create_internal_gear"),
   ("create_bevel_gear", "_create_bevel_gear")]

/-- `list(_TOOL_MAP.keys())`, in insertion order. -/
def toolMapKeys : List String := TOOL_MAP.map (·.1)

def toolMapLookup : List (String × String) → String → Option String
  | [], _ => none
  | (a, v) :: rest, k => if a = k then some v else toolMapLookup rest k

/-- `AUTH_TOKEN` (bridge_server.py line 19). -/
def AUTH_TOKEN : String := "avez_fusion_2026_!9xQ3p"

/-- An inbound HTTP request as `_Handler` sees it: path, headers, and the
body (`none` models a missing/zero `Content-Length`, for which `do_POST`
substitutes `"\x7b\x7d"`). -/
structure HttpRequest where
  path : String
  headers : List (String × String)
  body : Option String

def headerGet : List (String × String) → String → Option String
  | [], _ => none
  | (a, v) :: rest, k => if a = k then some v else headerGet rest k

/-- `_auth_ok` (line 46-47): the `X-Token` header must equal `AUTH_TOKEN`. -/
def authOk (req : HttpRequest) : Bool :=
  headerGet req.headers "X-Token" == some AUTH_TOKEN

/-- `_json_response(handler, 401, {"ok": False, "error": "unauthorized"})`. -/
def unauthorizedJson : Json :=
  .obj [("ok", .bool false), ("error", .str "unauthorized")]

def notFoundJson : Json :=
  .obj [("ok", .bool false), ("error", .str "not found")]

/-- `{"ok": False, "error": f"Unknown tool '{tool}'.", "available": [...]}`
(line 1035).  `tool` is interpolated with Python `str`. -/
def unknownToolJson (tool : Json) : Json :=
  .obj [("ok", .bool false),
        ("error", .str ("Unknown tool \x27" ++ pyStr tool ++ "\x27.")),
        ("available", .arr (toolMapKeys.map .str))]

/-- `payload.get("args", \x7b\x7d) or \x7b\x7d` (line 1033). -/
def dispatchArgs (payload : Json) : Json :=
  match jget payload "args" with
  | some v => if truthy v then v else .obj []
  | none => .obj []

/-- `_dispatch_tool` (lines 1031-1036).  The abstract `bridge` stands for
`_run_on_fusion_thread`; the second component records the submissions made
through it. -/
def dispatchTool (bridge : String → Json → Json) (payload : Json) :
    Json × List (String × Json) :=
  let args := dispatchArgs payload
  match jget payload "tool" with
  | some (.str s) =>
    match toolMapLookup TOOL_MAP s with
    | some tag => (bridge tag args, [(tag, args)])
    | none => (unknownToolJson (.str s), [])
  | some other => (unknownToolJson other, [])
  | none => (unknownToolJson .null, [])

/-- `_Handler.do_GET` (lines 1040-1051): status, JSON body, and the bridge
submissions made. -/
def doGET (bridge : String → Json → Json) (req : HttpRequest) :
    Nat × Json × List (String × Json) :=
  if !authOk req then (401, unauthorizedJson, [])
  else if req.path == "/state" then
    (200, bridge "_get_state" (.obj []), [("_get_state", .obj [])])
  else if req.path == "/ping" then
    (200, .obj [("ok", .bool true), ("result", .obj [("message", .str "pong")])], [])
  else (404, notFoundJson, [])

/-- `_Handler.do_POST` (lines 1053-1068). -/
def doPOST (bridge : String → Json → Json) (req : HttpRequest) :
    Nat × Json × List (String × Json) :=
  if !authOk req then (401, unauthorizedJson, [])
  else if !(req.path == "/tool") then (404, notFoundJson, [])
  else
    let raw := match req.body with
      | some s => s
      | none => "\x7b\x7d"
    match jsonLoads raw with
    | .error _ => (400, .obj [("ok", .bool false), ("error", .str "invalid json")], [])
    | .ok payload =>
      let (res, calls) := dispatchTool bridge payload
      (200, res, calls)

/-! ### Agent loop client (`chat_cli.py` lines 50-257)

The language model is abstracted as `conversation -> text` (the spec's
`Complete`); the HTTP transport to the listener is abstracted as a function
from the issued request to `r.json()` or a raised exception text (covering
`raise_for_status` and connection errors).  The loop model additionally
returns the model-call count, the `_execute_tool` dispatch count, and the
list of network requests actually issued, which the claims quantify over. -/

/-- One conversation entry (`{"role": ..., "content": ...}`). -/
structure Msg where
  role : String
  content : String

/-- One HTTP request issued by `_execute_tool`: the verb, the GET path or
POST target, and the POST JSON body (`Json.null` for GET). -/
structure ToolCall where
  verb : String
  target : String
  payload : Json

/-- `TOOL_ROUTER` (chat_cli.py lines 50-95), in source order:
public tool name to (HTTP verb, GET path or bridge tool string). -/
def TOOL_ROUTER : List (String × String × String) :=
  [("fusion_ping", "GET", "/ping"),
   ("fusion_get_state", "GET", "/state"),
   ("fusion_create_sketch_on_plane", "POST", "create_sketch_on_plane"),
   ("fusion_create_sketch_rect_xy", "POST", "create_sketch_rect_xy"),
   ("fusion_create_sketch_circle_xy", "POST", "create_sketch_circle_xy"),
   ("fusion_create_sketch_two_circles_xy", "POST", "create_sketch_two_circles_xy"),
   ("fusion_create_sketch_on_last_body_top", "POST", "create_sketch_on_last_body_top"),
   ("fusion_sketch_center_rectangle", "POST", "sketch_center_rectangle"),
   ("fusion_sketch_two_circles_current", "POST", "sketch_two_circles_current"),
   ("fusion_sketch_line", "POST", "sketch_line"),
   ("fusion_extrude_last_profile", "POST", "extrude_last_profile"),
   ("fusion_extrude_profile", "POST", "extrude_profile"),
   ("fusion_revolve_profile", "POST", "revolve_profile"),
   ("fusion_hole_on_last_body_top_face", "POST", "hole_on_last_body_top_face"),
   ("fusion_hole_bolt_circle_one", "POST", "hole_bolt_circle_one"),
   ("fusion_circular_pattern_last_feature", "POST", "circular_pattern_last_feature"),
   ("fusion_countersink_hole_on_last_body_top_face", "POST",
    "countersink_hole_on_last_body_top_face"),
   ("fusion_list_bodies", "POST", "list_bodies"),
   ("fusion_get_last_body", "POST", "get_last_body"),
   ("fusion_delete_all_bodies", "POST", "delete_all_bodies"),
   ("fusion_combine_all_bodies", "POST", "combine_all_bodies"),
   ("fusion_circular_pattern_last_body", "POST", "circular_pattern_last_body"),
   ("fusion_component_from_last_body", "POST", "component_from_last_body"),
   ("fusion_rigid_joint_last_two_components", "POST", "rigid_joint_last_two_components"),
   ("fusion_create_spur_gear", "POST", "create_spur_gear_involute"),
   ("fusion_create_rack_gear", "POST", "create_rack_gear"),
   ("fusion_create_helical_gear", "POST", "create_helical_gear"),
   ("fusion_create_internal_gear", "POST", "create_internal_gear"),
   ("fusion_create_bevel_gear", "POST", "create_bevel_gear")]

def routerLookup : List (String × String × String) → String → Option (String × String)
  | [], _ => none
  | (a, v, t) :: rest, k => if a = k then some (v, t) else routerLookup rest k

/-- The network: a `ToolCall` either yields the response `r.json()` or
raises (connection error or `raise_for_status`), whose `str(e)` is the
error text. -/
abbrev NetFn := ToolCall → Except String Json

/-- The model backend: `Complete(conversation) -> text`. -/
abbrev ModelFn := List Msg → String

/-- `_execute_tool` (chat_cli.py lines 192-201).  An unregistered (or
non-string) tool name synthesizes the not-allowed dict locally; a registered
one issues the GET or POST.  The call list records what touched the
network. -/
def executeToolRaw (net : NetFn) (toolName : Json) (args : Json) :
    Except String Json × List ToolCall :=
  match toolName with
  | .str s =>
    match routerLookup TOOL_ROUTER s with
    | none =>
      (.ok (.obj [("ok", .bool false), ("error", .str ("Tool not allowed: " ++ s))]), [])
    | some (verb, target) =>
      if verb == "GET" then
        let call : ToolCall := ⟨"GET", target, .null⟩
        (net call, [call])
      else
        let body : Json :=
          .obj [("tool", .str target), ("args", if truthy args then args else .obj [])]
        let call : ToolCall := ⟨"POST", "/tool", body⟩
        (net call, [call])
  | other =>
    (.ok (.obj [("ok", .bool false), ("error", .str ("Tool not allowed: " ++ pyStr other))]),
     [])

/-- What one iteration returns (or the whole turn, once the loop exits). -/
structure LoopRes where
  reply : Json
  messages : List Msg
  modelCalls : Nat
  dispatches : Nat
  netCalls : List ToolCall

/-- The `try: result = await _execute_tool(...) except Exception as e:
result = {"ok": False, "error": str(e)}` boundary of `agent_turn` (lines
235-238): raised dispatch errors become an error dict. -/
def dispatchResult : Except String Json → Json
  | .ok j => j
  | .error e => .obj [("ok", .bool false), ("error", .str e)]

/-- The `tool_result` feedback message appended after a dispatch
(chat_cli.py lines 241-255; serialized here without the `indent=2`
pretty-printing, which the claims never inspect). -/
def toolResultMsg (toolName args result : Json) : Msg :=
  ⟨"user",
   jdump (.obj [("tool_result",
     .obj [("tool_name", toolName), ("args", args), ("result", result)])])⟩

/-- The `for _ in range(12)` body of `agent_turn` (chat_cli.py lines
206-257), with the fuel counting the remaining iterations.  Each iteration:
one model call, strict JSON-only parsing (terminal failure report on error),
the `final` / non-`tool` / missing-`tool_name` exits, otherwise a tool
dispatch whose raised errors are folded into an error dict, and the
`tool_result` feedback append. -/
def agentLoop (model : ModelFn) (net : NetFn) :
    Nat → List Msg → Nat → Nat → List ToolCall → LoopRes
  | 0, msgs, mc, td, nc =>
    ⟨.str "Max steps reached without finishing.", msgs, mc, td, nc⟩
  | Nat.succ fuel, msgs, mc, td, nc =>
    let raw := pyStrip (model msgs)
    match parseJsonOnly raw with
    | .error e =>
      ⟨.str ("Model did not return valid JSON.\nRaw:\n" ++ raw ++ "\nError: " ++ e),
       msgs ++ [⟨"assistant", raw⟩], mc + 1, td, nc⟩
    | .ok cmd =>
      let msgs1 := msgs ++ [⟨"assistant", jdump cmd⟩]
      if jeqStrOpt (jget cmd "action") "final" then
        ⟨(jget cmd "message").getD (.str ""), msgs1, mc + 1, td, nc⟩
      else if !jeqStrOpt (jget cmd "action") "tool" then
        ⟨.str ("Unknown action: " ++ pyStr cmd), msgs1, mc + 1, td, nc⟩
      else
        let toolName := jget cmd "tool_name"
        if !truthyOpt toolName then
          ⟨.str ("Missing tool_name in: " ++ pyStr cmd), msgs1, mc + 1, td, nc⟩
        else
          let tn := toolName.getD .null
          let args := dispatchArgs cmd
          agentLoop model net fuel
            (msgs1 ++ [toolResultMsg tn args (dispatchResult (executeToolRaw net tn args).1)])
            (mc + 1) (td + 1) (nc ++ (executeToolRaw net tn args).2)

/-- `agent_turn(user_text, messages)` (chat_cli.py lines 203-257): append
the user message, then run at most 12 cycles. -/
def agentTurn (model : ModelFn) (net : NetFn) (userText : String) (msgs : List Msg) :
    LoopRes :=
  agentLoop model net 12 (msgs ++ [⟨"user", userText⟩]) 0 0 []

/-! ### Association-map lemmas (shared) -/

theorem mapLookup_append (m n : ResultsMap) (k : String) :
    mapLookup (m ++ n) k =
      match mapLookup m k with
      | some v => some v
      | none => mapLookup n k := by
  induction m with
  | nil => rfl
  | cons p rest ih =>
    by_cases h : p.1 = k
    · simp [mapLookup, if_pos h]
    · simpa [mapLookup, if_neg h] using ih

theorem mapLookup_append_fresh (m : ResultsMap) (k : String) (v : TaskEntry)
    (h : mapLookup m k = none) : mapLookup (m ++ [(k, v)]) k = some v := by
  simp [mapLookup_append, h, mapLookup]

theorem mapLookup_set_self (m : ResultsMap) (k : String) (v : TaskEntry)
    (h : (mapLookup m k).isSome = true) : mapLookup (mapSet m k v) k = some v := by
  induction m with
  | nil => simp [mapLookup] at h
  | cons p rest ih =>
    by_cases hak : p.1 = k
    · simp [mapLookup, mapSet, if_pos hak]
    · simp only [mapLookup, if_neg hak] at h
      simp [mapLookup, mapSet, if_neg hak, ih h]

theorem mapLookup_set_other (m : ResultsMap) (k : String) (v : TaskEntry) (k2 : String)
    (h : k2 ≠ k) : mapLookup (mapSet m k v) k2 = mapLookup m k2 := by
  induction m with
  | nil => rfl
  | cons p rest ih =>
    by_cases hak : p.1 = k
    · have hk2 : ¬ k = k2 := fun hh => h hh.symm
      have ha2 : ¬ p.1 = k2 := by rw [hak]; exact hk2
      simp [mapLookup, mapSet, if_pos hak, if_neg hk2, if_neg ha2, ih]
    · simp [mapLookup, mapSet, if_neg hak, ih]

theorem mapLookup_set_isSome (m : ResultsMap) (k : String) (v : TaskEntry) (k2 : String) :
    (mapLookup (mapSet m k v) k2).isSome = (mapLookup m k2).isSome := by
  by_cases h : k2 = k
  · subst h
    induction m with
    | nil => rfl
    | cons p rest ih =>
      by_cases hak : p.1 = k2
      · simp [mapLookup, mapSet, if_pos hak]
      · simp [mapLookup, mapSet, if_neg hak, ih]
  · rw [mapLookup_set_other m k v k2 h]

theorem mapLookup_remove_self (m : ResultsMap) (k : String) :
    mapLookup (mapRemove m k) k = none := by
  induction m with
  | nil => rfl
  | cons p rest ih =>
    by_cases hak : p.1 = k
    · simpa [mapRemove, if_pos hak] using ih
    · simpa [mapRemove, mapLookup, if_neg hak] using ih

theorem mapLookup_remove_other (m : ResultsMap) (k k2 : String) (h : k2 ≠ k) :
    mapLookup (mapRemove m k) k2 = mapLookup m k2 := by
  induction m with
  | nil => rfl
  | cons p rest ih =>
    by_cases hak : p.1 = k
    · have ha2 : ¬ p.1 = k2 := by rw [hak]; exact fun hh => h hh.symm
      simp [mapRemove, mapLookup, if_pos hak, if_neg ha2, ih]
    · simp [mapRemove, mapLookup, if_neg hak, ih]

theorem mapRemove_fresh (m : ResultsMap) (k : String) (h : mapLookup m k = none) :
    mapRemove m k = m := by
  induction m with
  | nil => rfl
  | cons p rest ih =>
    by_cases hak : p.1 = k
    · simp [mapLookup, if_pos hak] at h
    · simp only [mapLookup, if_neg hak] at h
      simp [mapRemove, if_neg hak, ih h]

theorem mapRemove_append (m n : ResultsMap) (k : String) :
    mapRemove (m ++ n) k = mapRemove m k ++ mapRemove n k := by
  induction m with
  | nil => rfl
  | cons p rest ih =>
    by_cases hak : p.1 = k
    · simp [mapRemove, if_pos hak, ih]
    · simp [mapRemove, if_neg hak, ih]

theorem mapRemove_set (m : ResultsMap) (k : String) (v : TaskEntry) :
    mapRemove (mapSet m k v) k = mapRemove m k := by
  induction m with
  | nil => rfl
  | cons p rest ih =>
    by_cases hak : p.1 = k
    · simp [mapRemove, mapSet, if_pos hak, ih]
    · simp [mapRemove, mapSet, if_neg hak, ih]

/-! ### Drain lemmas (shared) -/

theorem drainQueue_preserves (q : List QueuedTask) (res : ResultsMap) (k : String)
    (h : k ∉ q.map (·.id)) : mapLookup (drainQueue q res).1 k = mapLookup res k := by
  induction q generalizing res with
  | nil => rfl
  | cons t rest ih =>
    simp only [List.map_cons, List.mem_cons, not_or] at h
    match hl : mapLookup res t.id with
    | none => simp [drainQueue, hl]
    | some e =>
      simp only [drainQueue, hl]
      rw [ih _ h.2, mapLookup_set_other _ _ _ _ h.1]

theorem drainQueue_all_present (q : List QueuedTask) (res : ResultsMap)
    (hpres : ∀ t ∈ q, (mapLookup res t.id).isSome = true)
    (hnd : (q.map (·.id)).Nodup) :
    (drainQueue q res).2.1 = q.map (·.id) ∧
    (drainQueue q res).2.2 = [] ∧
    ∀ t ∈ q, mapLookup (drainQueue q res).1 t.id =
      some ⟨true, some (runTask t.fn t.payload)⟩ := by
  induction q generalizing res with
  | nil => exact ⟨rfl, rfl, by simp⟩
  | cons t rest ih =>
    have hts : (mapLookup res t.id).isSome = true := hpres t (List.mem_cons_self t rest)
    obtain ⟨e, he⟩ := Option.isSome_iff_exists.mp hts
    simp only [List.map_cons, List.nodup_cons] at hnd
    have hpres2 : ∀ u ∈ rest,
        (mapLookup (mapSet res t.id ⟨true, some (runTask t.fn t.payload)⟩) u.id).isSome = true := by
      intro u hu
      rw [mapLookup_set_isSome]
      exact hpres u (List.mem_cons_of_mem t hu)
    obtain ⟨h1, h2, h3⟩ := ih (mapSet res t.id ⟨true, some (runTask t.fn t.payload)⟩) hpres2 hnd.2
    refine ⟨?_, ?_, ?_⟩
    · simp [drainQueue, he, h1]
    · simp [drainQueue, he, h2]
    · intro u hu
      rcases List.mem_cons.mp hu with rfl | hu2
      · have hnot : u.id ∉ rest.map (·.id) := by
          intro hmem
          exact hnd.1 hmem
        simp only [drainQueue, he]
        rw [drainQueue_preserves rest _ u.id hnot,
          mapLookup_set_self _ _ _ hts]
      · simpa [drainQueue, he] using h3 u hu2

/-! ### Concrete bridge scenarios used by the claims -/

/-- A handler that returns normally (stands for any finished handler). -/
def handlerA : Json → HRes := fun _ => .ret .null

/-- A second normally-returning handler, with a distinguishable value. -/
def handlerB : Json → HRes := fun _ => .ret (.str "b-result")

/-- The race state behind the late-write claim: task `A` timed out, so its
submitter already ran `del _task_results["A"]`, but `A` is still queued
(the custom event had not been delivered yet), with `B` queued behind it
and `B`'s entry still pending. -/
def staleDrainState : BridgeState :=
  ⟨[("B", ⟨false, none⟩)],
   [⟨"A", handlerA, .obj []⟩, ⟨"B", handlerB, .obj []⟩]⟩

/-- A handler whose raised exception has an empty `str(e)`
(e.g. `raise Exception()`). -/
def raisingEmptyHandler : Json → HRes :=
  fun _ => .exn "" "Traceback (most recent call last):\n  <handler>"

/-- The pending state after submitting `t-0` on an idle bridge. -/
def emptyMsgScenario : BridgeState :=
  submitInsert ⟨[], []⟩ "t-0" raisingEmptyHandler (.obj [])

/-- The pending state after submitting `t-1` on an idle bridge (the drain
never runs before the caller's wait elapses). -/
def timeoutScenario : BridgeState :=
  submitInsert ⟨[], []⟩ "t-1" handlerA (.obj [])

/-- An idle bridge with tasks `A` then `B` queued and both entries pending. -/
def witnessQueueState : BridgeState :=
  ⟨[("A", ⟨false, none⟩), ("B", ⟨false, none⟩)],
   [⟨"A", handlerA, .obj []⟩, ⟨"B", handlerB, .obj []⟩]⟩

/-! ### Claim theorems: Task Bridge / Host Executor -/

/-- **C1** (code bug).  When the drain reaches a task whose pending entry was
already deleted by its timed-out submitter, the completion write raises
`KeyError`; the exception escapes the `while` loop (swallowed only by the
outer blanket handler), so the drain stops: here only `A`'s handler runs,
`B` stays queued, and `B`'s result slot and completion event are untouched —
contradicting the claim that a late completion write is simply discarded and
does not prevent the remaining queued tasks of the same drain from being
executed. -/
theorem late_write_aborts_drain :
    (notifyExec staleDrainState).2 = ["A"] ∧
    ((notifyExec staleDrainState).1.taskQueue.map fun t => t.id) = ["B"] ∧
    mapLookup (notifyExec staleDrainState).1.taskResults "B" =
      some ⟨false, none⟩ :=
  ⟨rfl, rfl, rfl⟩

/-- **C2** (counterexample).  A handler raising an exception whose `str(e)`
is empty is delivered in time, and `Submit` returns the failed dict whose
`"error"` field is the empty string — so the returned `Failed` outcome does
not always carry a non-empty error message. -/
theorem submit_raise_empty_message :
    ((submitFinish (notifyExec emptyMsgScenario).1 "t-0").map fun p => p.2) =
      some (failResult "" "Traceback (most recent call last):\n  <handler>") ∧
    jget (failResult "" "Traceback (most recent call last):\n  <handler>") "error" =
      some (.str "") :=
  ⟨rfl, rfl⟩

/-- **C2** (amended).  For every submission whose handler raises and whose
result is delivered within the timeout, `Submit` returns a `Failed` outcome
carrying the exception's `str(e)` (possibly empty) as the error message and
the stack trace; the raw exception is never propagated — `Submit` returns
the error dict normally, and the pending entry is removed. -/
theorem submit_raise_returns_failed (st : BridgeState) (id : String)
    (fn : Json → HRes) (payload : Json) (m tr : String)
    (hfresh : mapLookup st.taskResults id = none)
    (hq : st.taskQueue = [])
    (hraise : fn payload = .exn m tr) :
    submitFinish (notifyExec (submitInsert st id fn payload)).1 id =
      some (⟨st.taskResults, []⟩, failResult m tr) ∧
    jget (failResult m tr) "error" = some (.str m) ∧
    jget (failResult m tr) "trace" = some (.str tr) := by
  have hlook : mapLookup (mapInsert st.taskResults id ⟨false, none⟩) id =
      some ⟨false, none⟩ :=
    mapLookup_append_fresh _ _ _ hfresh
  have hsome : (mapLookup (mapInsert st.taskResults id ⟨false, none⟩) id).isSome = true := by
    rw [hlook]; rfl
  have hrun : runTask fn payload = failResult m tr := by
    simp [runTask, hraise]
  refine ⟨?_, rfl, rfl⟩
  simp only [submitInsert, hq, List.nil_append, notifyExec, drainQueue, hlook, hrun]
  have hlook2 : mapLookup (mapSet (mapInsert st.taskResults id ⟨false, none⟩) id
      ⟨true, some (failResult m tr)⟩) id = some ⟨true, some (failResult m tr)⟩ :=
    mapLookup_set_self _ _ _ hsome
  simp only [submitFinish, hlook2]
  have hrem : mapRemove (mapSet (mapInsert st.taskResults id ⟨false, none⟩) id
      ⟨true, some (failResult m tr)⟩) id = st.taskResults := by
    rw [mapRemove_set]
    show mapRemove (st.taskResults ++ [(id, ⟨false, none⟩)]) id = st.taskResults
    rw [mapRemove_append, mapRemove_fresh _ _ hfresh]
    simp [mapRemove]
  rw [hrem]

/-- Witness for `submit_raise_returns_failed` at a concrete raising
handler. -/
theorem submit_raise_returns_failed_witness :
    submitFinish (notifyExec (submitInsert ⟨[], []⟩ "w2"
        (fun _ => HRes.exn "boom" "TB") (.obj []))).1 "w2" =
      some (⟨[], []⟩, failResult "boom" "TB") :=
  (submit_raise_returns_failed ⟨[], []⟩ "w2" (fun _ => HRes.exn "boom" "TB")
    (.obj []) "boom" "TB" rfl rfl rfl).1

/-- **C3** (counterexample).  A notification is not always drained
completely: on the reachable stale-entry state (task `A` timed out and its
pending entry was deleted while `A` is still queued ahead of `B`), the
executed-id list is `["A"]` although the queue held `["A", "B"]`, and the
queue is not left empty — the drain aborts at `A`'s failed completion write
and `B` is not executed during that notification. -/
theorem stale_drain_not_complete :
    (staleDrainState.taskQueue.map fun t => t.id) = ["A", "B"] ∧
    (notifyExec staleDrainState).2 = ["A"] ∧
    ((["A"] : List String) == ["A", "B"]) = false ∧
    (notifyExec staleDrainState).1.taskQueue.isEmpty = false :=
  ⟨rfl, rfl, by decide, rfl⟩

/-- **C3** (amended).  On each notification all of whose queued tasks still
have their pending entries (no entry deleted by a timed-out submitter — the
normal case) and whose queued ids are distinct, the drain executes every
queued task (not just one) in submission order: the executed-id list equals
the queue's id list in order (so the handler of an earlier task finishes
before any later handler starts, the executor being single-threaded), the
queue is left empty, and every task's entry receives its written outcome
with the completion event set.  (A notification reaching a task whose entry
was removed instead aborts the drain at that task, per the counterexample
above.) -/
theorem drain_complete_and_fifo (st : BridgeState)
    (hpres : ∀ t ∈ st.taskQueue, (mapLookup st.taskResults t.id).isSome = true)
    (hnd : (st.taskQueue.map fun t => t.id).Nodup) :
    (notifyExec st).2 = (st.taskQueue.map fun t => t.id) ∧
    (notifyExec st).1.taskQueue = [] ∧
    ∀ t ∈ st.taskQueue, mapLookup (notifyExec st).1.taskResults t.id =
      some ⟨true, some (runTask t.fn t.payload)⟩ :=
  drainQueue_all_present st.taskQueue st.taskResults hpres hnd

/-- Witness for `drain_complete_and_fifo` on a two-task queue. -/
theorem drain_complete_and_fifo_witness :
    (notifyExec witnessQueueState).2 = ["A", "B"] ∧
    (notifyExec witnessQueueState).1.taskQueue = [] := by
  obtain ⟨h1, h2, _⟩ := drain_complete_and_fifo witnessQueueState
    (by
      intro t ht
      cases ht with
      | head => rfl
      | tail _ h2 =>
        cases h2 with
        | head => rfl
        | tail _ h3 => cases h3)
    (by decide)
  exact ⟨h1.trans rfl, h2⟩

/-- **C4** (counterexample).  On a pure timeout the bridge returns the fixed
dict whose error text is `"Timeout waiting for Fusion execution."` — not the
claimed `"timeout waiting for host execution"`. -/
theorem timeout_message_differs :
    ((submitFinish timeoutScenario "t-1").map fun p => p.2) = some timeoutResult ∧
    jget timeoutResult "error" =
      some (.str "Timeout waiting for Fusion execution.") ∧
    (("Timeout waiting for Fusion execution." : String) ==
        "timeout waiting for host execution") = false :=
  ⟨rfl, rfl, by decide⟩

/-- **C4** (amended).  For every submission, the wait bound is the fixed
constant 30 (`ev.wait(timeout=30.0)`); when the completion event has not
been fired by then (no drain ran), `Submit` returns
`Failed("Timeout waiting for Fusion execution.")` and removes the task's
entry from the pending map (the pending map reverts to its pre-submission
contents). -/
theorem submit_timeout_returns_failed_and_removes (st : BridgeState) (id : String)
    (fn : Json → HRes) (payload : Json)
    (hfresh : mapLookup st.taskResults id = none) :
    waitTimeoutSeconds = 30 ∧
    submitFinish (submitInsert st id fn payload) id =
      some (⟨st.taskResults, st.taskQueue ++ [⟨id, fn, payload⟩]⟩, timeoutResult) ∧
    jget timeoutResult "error" =
      some (.str "Timeout waiting for Fusion execution.") := by
  refine ⟨rfl, ?_, rfl⟩
  have hlook : mapLookup (mapInsert st.taskResults id ⟨false, none⟩) id =
      some ⟨false, none⟩ :=
    mapLookup_append_fresh _ _ _ hfresh
  simp only [submitInsert, submitFinish, hlook]
  have hrem : mapRemove (mapInsert st.taskResults id ⟨false, none⟩) id =
      st.taskResults := by
    show mapRemove (st.taskResults ++ [(id, ⟨false, none⟩)]) id = st.taskResults
    rw [mapRemove_append, mapRemove_fresh _ _ hfresh]
    simp [mapRemove]
  rw [hrem]

/-- Witness for `submit_timeout_returns_failed_and_removes` on an idle
bridge. -/
theorem submit_timeout_witness :
    submitFinish (submitInsert ⟨[], []⟩ "w4" handlerA (.obj [])) "w4" =
      some (⟨[], [⟨"w4", handlerA, .obj []⟩]⟩, timeoutResult) :=
  (submit_timeout_returns_failed_and_removes ⟨[], []⟩ "w4" handlerA (.obj []) rfl).2.1

/-- **C10** (confirmed).  A submission with a fresh id inserts exactly one
pending entry, keyed by that id, leaving every other key unchanged; and the
read-out step unconditionally deletes that entry on every path — the
returned outcome is the timeout dict when the result slot is still empty and
the written outcome otherwise, and afterwards the pending map has no entry
for the id while all other keys are untouched.  (Freshness of the id stands
for `uuid4()` never repeating an id already pending.) -/
theorem submit_pending_map_discipline (st : BridgeState) (id : String)
    (fn : Json → HRes) (payload : Json)
    (hfresh : mapLookup st.taskResults id = none) :
    (submitInsert st id fn payload).taskResults =
      st.taskResults ++ [(id, ⟨false, none⟩)] ∧
    mapLookup (submitInsert st id fn payload).taskResults id = some ⟨false, none⟩ ∧
    (∀ k, ¬ k = id →
      mapLookup (submitInsert st id fn payload).taskResults k =
        mapLookup st.taskResults k) ∧
    ∀ st2 : BridgeState, ∀ entry : TaskEntry,
      mapLookup st2.taskResults id = some entry →
      submitFinish st2 id =
        some (⟨mapRemove st2.taskResults id, st2.taskQueue⟩,
          match entry.result with
          | none => timeoutResult
          | some r => r) ∧
      mapLookup (mapRemove st2.taskResults id) id = none ∧
      ∀ k, ¬ k = id →
        mapLookup (mapRemove st2.taskResults id) k = mapLookup st2.taskResults k := by
  refine ⟨rfl, mapLookup_append_fresh _ _ _ hfresh, ?_, ?_⟩
  · intro k hk
    show mapLookup (st.taskResults ++ [(id, ⟨false, none⟩)]) k = mapLookup st.taskResults k
    rw [mapLookup_append]
    match hmk : mapLookup st.taskResults k with
    | some v => rfl
    | none =>
      have hik : ¬ id = k := fun h => hk h.symm
      simp [mapLookup, hik]
  · intro st2 entry hent
    refine ⟨?_, mapLookup_remove_self _ _, fun k hk => mapLookup_remove_other _ _ _ hk⟩
    simp only [submitFinish, hent]

/-- Witness for `submit_pending_map_discipline` on an idle bridge. -/
theorem submit_pending_map_discipline_witness :
    mapLookup (submitInsert ⟨[], []⟩ "w10" handlerA (.obj [])).taskResults "w10" =
      some ⟨false, none⟩ :=
  (submit_pending_map_discipline ⟨[], []⟩ "w10" handlerA (.obj []) rfl).2.1

/-! ### Agent loop step lemmas (shared) -/

/-- `_execute_tool` on a name missing from `TOOL_ROUTER` synthesizes the
not-allowed dict and touches no network. -/
theorem executeToolRaw_unknown (net : NetFn) (s : String) (args : Json)
    (h : routerLookup TOOL_ROUTER s = none) :
    executeToolRaw net (.str s) args =
      (.ok (.obj [("ok", .bool false), ("error", .str ("Tool not allowed: " ++ s))]),
       []) := by
  simp only [executeToolRaw, h]

/-- One loop iteration on a parse failure: the raw text is appended as the
assistant turn and the run ends with the report string. -/
theorem agentLoop_parse_fail_step (model : ModelFn) (net : NetFn) (fuel : Nat)
    (msgs : List Msg) (mc td : Nat) (nc : List ToolCall) (e : String)
    (hp : parseJsonOnly (pyStrip (model msgs)) = .error e) :
    agentLoop model net (fuel + 1) msgs mc td nc =
      ⟨.str ("Model did not return valid JSON.\nRaw:\n" ++ pyStrip (model msgs) ++
          "\nError: " ++ e),
       msgs ++ [⟨"assistant", pyStrip (model msgs)⟩], mc + 1, td, nc⟩ := by
  simp only [agentLoop, hp]

/-- One loop iteration on a parsed `final` action: the loop returns the
command's `message` (default the empty string). -/
theorem agentLoop_final_step (model : ModelFn) (net : NetFn) (fuel : Nat)
    (msgs : List Msg) (mc td : Nat) (nc : List ToolCall) (c : Json)
    (hp : parseJsonOnly (pyStrip (model msgs)) = .ok c)
    (ha : jget c "action" = some (.str "final")) :
    agentLoop model net (fuel + 1) msgs mc td nc =
      ⟨(jget c "message").getD (.str ""), msgs ++ [⟨"assistant", jdump c⟩],
       mc + 1, td, nc⟩ := by
  have e1 : (("final" : String) == "final") = true := by decide
  simp only [agentLoop, hp, ha, jeqStrOpt, e1, if_true]

/-- One loop iteration on a parsed tool action with a nonempty string
`tool_name`: dispatch, append the `tool_result` feedback, and continue. -/
theorem agentLoop_tool_step (model : ModelFn) (net : NetFn) (fuel : Nat)
    (msgs : List Msg) (mc td : Nat) (nc : List ToolCall) (c : Json) (s : String)
    (hp : parseJsonOnly (pyStrip (model msgs)) = .ok c)
    (ha : jget c "action" = some (.str "tool"))
    (ht : jget c "tool_name" = some (.str s))
    (hs : ¬ s = "") :
    agentLoop model net (fuel + 1) msgs mc td nc =
      agentLoop model net fuel
        ((msgs ++ [⟨"assistant", jdump c⟩]) ++
          [toolResultMsg (.str s) (dispatchArgs c)
            (dispatchResult (executeToolRaw net (.str s) (dispatchArgs c)).1)])
        (mc + 1) (td + 1) (nc ++ (executeToolRaw net (.str s) (dispatchArgs c)).2) := by
  have e1 : (("tool" : String) == "final") = false := by decide
  have e2 : (("tool" : String) == "tool") = true := by decide
  have e3 : (s == "") = false := beq_eq_false_iff_ne.mpr hs
  simp only [agentLoop, hp, ha, ht, jeqStrOpt, e1, e2, e3, truthyOpt, truthy,
    Bool.not_true, Bool.not_false, if_true, if_false, Option.getD_some,
    Bool.false_eq_true, Bool.true_eq_false, ite_true, ite_false]

/-- Under a model that always produces a parsed tool action, the loop runs
its whole fuel and exits with the max-steps reply, one model call and one
dispatch per iteration. -/
theorem agentLoop_all_tool (model : ModelFn) (net : NetFn)
    (H : ∀ msgs, ∃ c s, parseJsonOnly (pyStrip (model msgs)) = .ok c ∧
      jget c "action" = some (.str "tool") ∧
      jget c "tool_name" = some (.str s) ∧ ¬ s = "") :
    ∀ n msgs mc td nc, ∃ ms nc2,
      agentLoop model net n msgs mc td nc =
        ⟨.str "Max steps reached without finishing.", ms, mc + n, td + n, nc2⟩ := by
  intro n
  induction n with
  | zero => exact fun msgs mc td nc => ⟨msgs, nc, rfl⟩
  | succ n ih =>
    intro msgs mc td nc
    obtain ⟨c, s, hp, ha, ht, hs⟩ := H msgs
    rw [agentLoop_tool_step model net n msgs mc td nc c s hp ha ht hs]
    obtain ⟨ms, nc2, hrec⟩ := ih ((msgs ++ [⟨"assistant", jdump c⟩]) ++
      [toolResultMsg (.str s) (dispatchArgs c)
        (dispatchResult (executeToolRaw net (.str s) (dispatchArgs c)).1)])
      (mc + 1) (td + 1) (nc ++ (executeToolRaw net (.str s) (dispatchArgs c)).2)
    refine ⟨ms, nc2, ?_⟩
    rw [hrec]
    have e1 : mc + 1 + n = mc + (n + 1) := by omega
    have e2 : td + 1 + n = td + (n + 1) := by omega
    rw [e1, e2]

/-! ### Concrete agent-loop scenarios used by the claims -/

/-- A model that always asks for the same registered tool and never emits
`final`. -/
def constToolModel : ModelFn := fun _ =>
  "\x7b\"action\": \"tool\", \"tool_name\": \"fusion_ping\", \"args\": \x7b\x7d, \"message\": \"go\"\x7d"

/-- What `constToolModel`'s output parses to. -/
def constToolCmd : Json :=
  .obj [("action", .str "tool"), ("tool_name", .str "fusion_ping"),
        ("args", .obj []), ("message", .str "go")]

/-- A network stub that always answers the ping result. -/
def pongNet : NetFn := fun _ =>
  .ok (.obj [("ok", .bool true), ("result", .obj [("message", .str "pong")])])

/-- The claimed parse-recovery example output. -/
def sureOutput : String :=
  "Sure! \x7b\"action\":\"final\",\"message\":\"ok\"\x7d thanks"

/-- What the object embedded in `sureOutput` parses to. -/
def sureCmd : Json :=
  .obj [("action", .str "final"), ("message", .str "ok")]

/-- A model output that IS one JSON object followed by trailing prose, so
its stripped text starts with a brace. -/
def trailingTextOutput : String :=
  "\x7b\"action\":\"final\",\"message\":\"ok\"\x7d thanks"

/-! ### Claim theorems: Agent Loop -/

/-- **C5** (confirmed).  For every model whose output always parses to a
tool action (a valid tool call, never `final`), and any network behavior,
`agent_turn` ends with the fixed max-steps message after exactly 12 model
calls and at most 12 tool dispatches. -/
theorem agent_budget_twelve_cycles (model : ModelFn)
    (H : ∀ msgs, ∃ c s, parseJsonOnly (pyStrip (model msgs)) = .ok c ∧
      jget c "action" = some (.str "tool") ∧
      jget c "tool_name" = some (.str s) ∧ ¬ s = "") :
    ∀ net userText msgs0,
      (agentTurn model net userText msgs0).reply =
        .str "Max steps reached without finishing." ∧
      (agentTurn model net userText msgs0).modelCalls = 12 ∧
      (agentTurn model net userText msgs0).dispatches ≤ 12 := by
  intro net u m0
  obtain ⟨ms, nc2, h⟩ := agentLoop_all_tool model net H 12 (m0 ++ [⟨"user", u⟩]) 0 0 []
  unfold agentTurn
  rw [h]
  exact ⟨rfl, rfl, Nat.le_refl 12⟩

/-- Witness for `agent_budget_twelve_cycles` on a model that always asks
for `fusion_ping`. -/
theorem agent_budget_twelve_cycles_witness :
    (agentTurn constToolModel pongNet "hello" []).reply =
      .str "Max steps reached without finishing." ∧
    (agentTurn constToolModel pongNet "hello" []).modelCalls = 12 := by
  have h := agent_budget_twelve_cycles constToolModel
    (fun msgs => ⟨constToolCmd, "fusion_ping", rfl, rfl, rfl, by decide⟩)
    pongNet "hello" []
  exact ⟨h.1, h.2.1⟩

/-- **C6** (counterexample).  The model output
`'\x7b"action":"final","message":"ok"\x7d thanks'` is not pure JSON, and the
substring between the first brace (index 0) and the last brace (index 32)
parses to the final-"ok" object — yet `_parse_json_only` performs no
recovery because the stripped text starts with a brace: the parse fails with
"Extra data" and the run terminates with the invalid-JSON report instead of
returning "ok".  This refutes the claim that every non-pure-JSON output gets
the extract-and-reparse recovery. -/
theorem brace_start_gets_no_recovery :
    jsonLoads trailingTextOutput = .error "Extra data" ∧
    findIdxFrom (fun c => c = '\x7b') trailingTextOutput.data = some 0 ∧
    rfindIdx (fun c => c = '\x7d') trailingTextOutput.data = some 32 ∧
    jsonLoadsChars (sliceIncl trailingTextOutput.data 0 32) = .ok sureCmd ∧
    parseJsonOnly trailingTextOutput = .error "Extra data" ∧
    (agentTurn (fun _ => trailingTextOutput) pongNet "u" []).reply =
      .str ("Model did not return valid JSON.\nRaw:\n" ++ trailingTextOutput ++
        "\nError: Extra data") ∧
    (("Model did not return valid JSON.\nRaw:\n" ++ trailingTextOutput ++
        "\nError: Extra data" : String) == "ok") = false :=
  ⟨rfl, rfl, rfl, rfl, rfl, rfl, by decide⟩

/-- **C6** (amended).  `_parse_json_only` attempts the
extract-between-braces recovery only when the stripped text does not start
with `\x7b` (and both braces are found in the right order); when the
stripped text does start with `\x7b` the text is passed to `json.loads`
as-is.  The claimed example `sureOutput` does recover and the loop returns
"ok" after one model call and no dispatches; and when parsing (after any
recovery) fails, the run terminates reporting the raw text and the parse
error. -/
theorem parse_recovery_behavior :
    (∀ s : String, (pyStripChars s.data).head? = some '\x7b' →
      parseJsonOnly s = jsonLoadsChars (pyStripChars s.data)) ∧
    (∀ (s : String) (i j : Nat), ¬ (pyStripChars s.data).head? = some '\x7b' →
      findIdxFrom (fun c => c = '\x7b') (pyStripChars s.data) = some i →
      rfindIdx (fun c => c = '\x7d') (pyStripChars s.data) = some j →
      i < j →
      parseJsonOnly s = jsonLoadsChars (sliceIncl (pyStripChars s.data) i j)) ∧
    (∀ (model : ModelFn) (net : NetFn) (u : String) (msgs0 : List Msg),
      pyStrip (model (msgs0 ++ [Msg.mk "user" u])) = sureOutput →
      (agentTurn model net u msgs0).reply = .str "ok" ∧
      (agentTurn model net u msgs0).modelCalls = 1 ∧
      (agentTurn model net u msgs0).dispatches = 0) ∧
    (∀ (model : ModelFn) (net : NetFn) (u : String) (msgs0 : List Msg) (e : String),
      parseJsonOnly (pyStrip (model (msgs0 ++ [Msg.mk "user" u]))) = .error e →
      agentTurn model net u msgs0 =
        ⟨.str ("Model did not return valid JSON.\nRaw:\n" ++
            pyStrip (model (msgs0 ++ [Msg.mk "user" u])) ++ "\nError: " ++ e),
         msgs0 ++ [Msg.mk "user" u, ⟨"assistant", pyStrip (model (msgs0 ++ [Msg.mk "user" u]))⟩],
         1, 0, []⟩) := by
  refine ⟨?_, ?_, ?_, ?_⟩
  · intro s h
    simp only [parseJsonOnly, parseJsonOnlyChars, h, if_true]
  · intro s i j h hi hj hij
    simp only [parseJsonOnly, parseJsonOnlyChars, if_neg h, hi, hj, if_pos hij]
  · intro model net u msgs0 hraw
    have hp : parseJsonOnly (pyStrip (model (msgs0 ++ [Msg.mk "user" u]))) = .ok sureCmd := by
      rw [hraw]
      exact rfl
    have ha : jget sureCmd "action" = some (.str "final") := rfl
    have hstep :=
      agentLoop_final_step model net 11 (msgs0 ++ [Msg.mk "user" u]) 0 0 [] sureCmd hp ha
    have h12 : (12 : Nat) = 11 + 1 := rfl
    refine ⟨?_, ?_, ?_⟩
    · show (agentLoop model net 12 (msgs0 ++ [Msg.mk "user" u]) 0 0 []).reply = .str "ok"
      rw [h12, hstep]
      exact rfl
    · show (agentLoop model net 12 (msgs0 ++ [Msg.mk "user" u]) 0 0 []).modelCalls = 1
      rw [h12, hstep]
    · show (agentLoop model net 12 (msgs0 ++ [Msg.mk "user" u]) 0 0 []).dispatches = 0
      rw [h12, hstep]
  · intro model net u msgs0 e hp
    have hstep :=
      agentLoop_parse_fail_step model net 11 (msgs0 ++ [Msg.mk "user" u]) 0 0 [] e hp
    have h12 : (12 : Nat) = 11 + 1 := rfl
    show agentLoop model net 12 (msgs0 ++ [Msg.mk "user" u]) 0 0 [] = _
    rw [h12, hstep]
    simp [List.append_assoc]

/-- Witness for `parse_recovery_behavior` on the claimed example output. -/
theorem parse_recovery_behavior_witness :
    (agentTurn (fun _ => sureOutput) pongNet "u" []).reply = .str "ok" ∧
    (agentTurn (fun _ => sureOutput) pongNet "u" []).modelCalls = 1 := by
  have h := parse_recovery_behavior.2.2.1 (fun _ => sureOutput) pongNet "u" [] rfl
  exact ⟨h.1, h.2.1⟩

/-- **C9** (counterexample).  For the unregistered name "nonexistent" the
synthesized outcome's error text is `"Tool not allowed: nonexistent"`
(chat_cli.py line 194) — not the claimed fixed `"tool not allowed"`
message. -/
theorem tool_not_allowed_message_differs :
    executeToolRaw pongNet (.str "nonexistent") (.obj []) =
      (.ok (.obj [("ok", .bool false),
        ("error", .str "Tool not allowed: nonexistent")]), []) ∧
    jget (.obj [("ok", .bool false),
        ("error", .str "Tool not allowed: nonexistent")]) "error" =
      some (.str "Tool not allowed: nonexistent") ∧
    (("Tool not allowed: nonexistent" : String) == "tool not allowed") = false :=
  ⟨rfl, rfl, by decide⟩

/-- **C9** (amended).  A tool action whose `tool_name` is not in
`TOOL_ROUTER` never contacts the network: `_execute_tool` synthesizes the
failure dict whose error text is `"Tool not allowed: "` followed by the tool
name, locally and with no issued request, and the loop feeds it back into
the conversation as an ordinary `tool_result` entry and continues; a known
name issues exactly the routed GET or POST request. -/
theorem tool_router_gating (net : NetFn) :
    (∀ (s : String) (args : Json), routerLookup TOOL_ROUTER s = none →
      executeToolRaw net (.str s) args =
        (.ok (.obj [("ok", .bool false),
          ("error", .str ("Tool not allowed: " ++ s))]), [])) ∧
    (∀ (s : String) (args : Json) (verb target : String),
      routerLookup TOOL_ROUTER s = some (verb, target) →
      (verb = "GET" →
        executeToolRaw net (.str s) args =
          (net ⟨"GET", target, .null⟩, [⟨"GET", target, .null⟩])) ∧
      (verb = "POST" →
        executeToolRaw net (.str s) args =
          (net ⟨"POST", "/tool",
            .obj [("tool", .str target),
              ("args", if truthy args then args else .obj [])]⟩,
           [⟨"POST", "/tool",
            .obj [("tool", .str target),
              ("args", if truthy args then args else .obj [])]⟩]))) ∧
    (∀ (model : ModelFn) (fuel : Nat) (msgs : List Msg) (mc td : Nat)
      (nc : List ToolCall) (c : Json) (s : String),
      parseJsonOnly (pyStrip (model msgs)) = .ok c →
      jget c "action" = some (.str "tool") →
      jget c "tool_name" = some (.str s) →
      ¬ s = "" →
      routerLookup TOOL_ROUTER s = none →
      agentLoop model net (fuel + 1) msgs mc td nc =
        agentLoop model net fuel
          ((msgs ++ [⟨"assistant", jdump c⟩]) ++
            [toolResultMsg (.str s) (dispatchArgs c)
              (.obj [("ok", .bool false),
                ("error", .str ("Tool not allowed: " ++ s))])])
          (mc + 1) (td + 1) nc) := by
  refine ⟨?_, ?_, ?_⟩
  · exact fun s args h => executeToolRaw_unknown net s args h
  · intro s args verb target h
    constructor
    · intro hv
      subst hv
      simp only [executeToolRaw, h]
      rfl
    · intro hv
      subst hv
      simp only [executeToolRaw, h]
      rfl
  · intro model fuel msgs mc td nc c s hp ha ht hs hnone
    rw [agentLoop_tool_step model net fuel msgs mc td nc c s hp ha ht hs,
      executeToolRaw_unknown net s (dispatchArgs c) hnone]
    simp only [dispatchResult, List.append_nil]

/-- Witness for `tool_router_gating` on an unregistered name. -/
theorem tool_router_gating_witness :
    executeToolRaw pongNet (.str "not_a_tool") (.obj []) =
      (.ok (.obj [("ok", .bool false),
        ("error", .str ("Tool not allowed: " ++ "not_a_tool"))]), []) :=
  (tool_router_gating pongNet).1 "not_a_tool" (.obj []) rfl

/-! ### Claim theorems: Request Listener -/

/-- **C7** (confirmed).  Any request whose `X-Token` header does not equal
the shared secret is answered 401 with the unauthorized body by both
handlers, whatever the path or body, and no bridge submission is made — the
auth check precedes all other processing. -/
theorem auth_mismatch_gets_401 (bridge : String → Json → Json) (req : HttpRequest)
    (h : authOk req = false) :
    doGET bridge req = (401, unauthorizedJson, []) ∧
    doPOST bridge req = (401, unauthorizedJson, []) := by
  constructor
  · simp [doGET, h]
  · simp [doPOST, h]

/-- A request to a nonexistent route with a wrong token. -/
def badTokenRequest : HttpRequest :=
  ⟨"/no-such-route", [("X-Token", "wrong-secret")], some "\x7b\x7d"⟩

/-- Witness for `auth_mismatch_gets_401` on a nonexistent route. -/
theorem auth_mismatch_gets_401_witness :
    doGET (fun _ _ => Json.null) badTokenRequest = (401, unauthorizedJson, []) ∧
    doPOST (fun _ _ => Json.null) badTokenRequest = (401, unauthorizedJson, []) :=
  auth_mismatch_gets_401 (fun _ _ => Json.null) badTokenRequest (by decide)

/-- **C8** (confirmed).  An authenticated `POST /tool` whose body names an
unregistered tool is answered 200 with `ok:false` and an `available` list
holding every registered name, and no submission goes through the bridge;
a registered name is submitted to the bridge and its outcome is returned
with status 200 as-is. -/
theorem unknown_tool_never_reaches_bridge (bridge : String → Json → Json)
    (hs : List (String × String)) (b : String) (payload : Json) (s : String)
    (hauth : authOk ⟨"/tool", hs, some b⟩ = true)
    (hbody : jsonLoads b = .ok payload)
    (htool : jget payload "tool" = some (.str s)) :
    (toolMapLookup TOOL_MAP s = none →
      doPOST bridge ⟨"/tool", hs, some b⟩ = (200, unknownToolJson (.str s), []) ∧
      jget (unknownToolJson (.str s)) "available" =
        some (.arr (toolMapKeys.map .str))) ∧
    ∀ tag, toolMapLookup TOOL_MAP s = some tag →
      doPOST bridge ⟨"/tool", hs, some b⟩ =
        (200, bridge tag (dispatchArgs payload), [(tag, dispatchArgs payload)]) := by
  constructor
  · intro hnone
    refine ⟨?_, rfl⟩
    simp [doPOST, hauth, hbody, dispatchTool, htool, hnone]
  · intro tag htag
    simp [doPOST, hauth, hbody, dispatchTool, htool, htag]

/-- An authenticated request for an unregistered tool. -/
def unknownToolRequest : HttpRequest :=
  ⟨"/tool", [("X-Token", "avez_fusion_2026_!9xQ3p")],
   some "\x7b\"tool\": \"nonexistent\"\x7d"⟩

/-- Witness for `unknown_tool_never_reaches_bridge` on tool
"nonexistent". -/
theorem unknown_tool_never_reaches_bridge_witness :
    doPOST (fun _ _ => Json.null) unknownToolRequest =
      (200, unknownToolJson (.str "nonexistent"), []) :=
  ((unknown_tool_never_reaches_bridge (fun _ _ => Json.null)
      [("X-Token", "avez_fusion_2026_!9xQ3p")] "\x7b\"tool\": \"nonexistent\"\x7d"
      (Json.obj [("tool", Json.str "nonexistent")]) "nonexistent"
      (by decide) rfl rfl).1 rfl).1

end AgenticCAD
